import Mathlib

/-!
Shallow embedding of the ChatX client-side chat synchronization core
(`js/utils.js`, `js/firebase.js`, `js/realtime.js`, `js/chat.js`) and
verification of the specification's claims about it.

JavaScript `Map`s and Firestore map-valued fields are modelled as
association lists with unique keys; `serverTimestamp()` values are passed
in explicitly as the time of the call; asynchronous sequences of remote
writes are modelled as explicit lists of successive store states.
-/

namespace ChatX

/-- `Map.set k v` / partial map-field update: replaces the value at an
existing key in place, otherwise appends the new entry. -/
def mapSet {α : Type} (k : String) (v : α) : List (String × α) → List (String × α)
  | [] => [(k, v)]
  | (k', v') :: rest => if k' = k then (k, v) :: rest else (k', v') :: mapSet k v rest

/-- `Map.get k` / reading a map field. -/
def mapLookup {α : Type} (k : String) : List (String × α) → Option α
  | [] => none
  | (k', v') :: rest => if k' = k then some v' else mapLookup k rest

/-- `Map.delete k`: removes the entry stored at `k` (keys are unique). -/
def mapDelete {α : Type} (k : String) : List (String × α) → List (String × α)
  | [] => []
  | (k', v') :: rest => if k' = k then rest else (k', v') :: mapDelete k rest

theorem mapLookup_mapSet {α : Type} (k : String) (v : α) (l : List (String × α)) :
    mapLookup k (mapSet k v l) = some v := by
  induction l with
  | nil => simp [mapSet, mapLookup]
  | cons hd tl ih =>
    obtain ⟨k', v'⟩ := hd
    by_cases h : k' = k <;> simp [mapSet, mapLookup, h, ih]

/-- `utils.generateChatId(userId1, userId2)`: the conversation id for a
pair of user ids, joining the lexicographically smaller id first. -/
def generateChatId (userId1 userId2 : String) : String :=
  if userId1 < userId2 then userId1 ++ "_" ++ userId2 else userId2 ++ "_" ++ userId1

/-- C9: for every two user ids `a` and `b`, `generateChatId a b` equals
`generateChatId b a`, and the id is the two ids joined with the
lexicographically smaller one first, so the id is a deterministic pure
function of the unordered pair. -/
theorem generateChatId_symm_canonical (a b : String) :
    generateChatId a b = generateChatId b a ∧
    (a ≤ b → generateChatId a b = a ++ "_" ++ b) ∧
    (b ≤ a → generateChatId a b = b ++ "_" ++ a) := by
  refine ⟨?_, ?_, ?_⟩
  · by_cases h : a < b
    · have h' : ¬b < a := lt_asymm h
      simp [generateChatId, h, h']
    · by_cases h2 : b < a
      · simp [generateChatId, h, h2]
      · have hab : a = b := le_antisymm (le_of_not_lt h2) (le_of_not_lt h)
        subst hab
        simp [generateChatId]
  · intro hle
    by_cases h : a < b
    · simp [generateChatId, h]
    · have hab : a = b := le_antisymm hle (le_of_not_lt h)
      subst hab
      simp [generateChatId]
  · intro hle
    by_cases h : a < b
    · have hab : a = b := le_antisymm (le_of_lt h) hle
      subst hab
      simp [generateChatId]
    · simp [generateChatId, h]

/-- Witness for C9 at concrete ids `"alice"` and `"bob"`. -/
theorem generateChatId_symm_canonical_witness :
    generateChatId "alice" "bob" = generateChatId "bob" "alice" ∧
    generateChatId "alice" "bob" = "alice" ++ "_" ++ "bob" := by
  refine ⟨(generateChatId_symm_canonical "alice" "bob").1, ?_⟩
  exact (generateChatId_symm_canonical "alice" "bob").2.1
    (String.le_iff_toList_le.mpr (by decide))

/-! ### Typing indicator (`realtime.js`) -/

/-- One remote write of the `typingIn` field of the current user's
document, as issued by `firebaseService.updateTypingStatus(uid, chatId,
isTyping)`: the written value is `some chatId` or `none` (null). -/
structure TypingWrite where
  userId : String
  typingIn : Option String
deriving DecidableEq, Repr

/-- The part of `RealTimeService`'s state driving the typing indicator:
the single `isTyping` boolean shared across all conversations, the
`typingTimeouts` map from chat id to the absolute expiry time (ms) of the
pending inactivity timeout, and the log of `typingIn` remote writes
issued so far. -/
structure TypingState where
  isTyping : Bool
  typingTimeouts : List (String × Nat)
  writes : List TypingWrite
deriving DecidableEq, Repr

/-- `realtime.js startTyping(userId, chatId)` invoked at time `now` (ms):
returns immediately when `isTyping` is already set; otherwise sets the
flag, replaces any pending timeout for the chat (clearTimeout + set) by
one expiring at `now + 3000`, and issues one `typingIn = chatId` write. -/
def startTyping (userId chatId : String) (now : Nat) (s : TypingState) : TypingState :=
  if s.isTyping then s
  else
    { isTyping := true
      typingTimeouts := mapSet chatId (now + 3000) s.typingTimeouts
      writes := s.writes ++ [⟨userId, some chatId⟩] }

/-- `realtime.js stopTyping(userId, chatId)` (also the body of the
3-second inactivity timeout armed by `startTyping`, and invoked on
explicit send): returns immediately when not typing; otherwise clears the
flag and the chat's pending timeout and issues one `typingIn = null`
write. -/
def stopTyping (userId chatId : String) (s : TypingState) : TypingState :=
  if !s.isTyping then s
  else
    { isTyping := false
      typingTimeouts := mapDelete chatId s.typingTimeouts
      writes := s.writes ++ [⟨userId, none⟩] }

/-- C6 counterexample: starting from the idle state, a typing burst
begins at t=0 (timeout armed for t=3000) and a further keystroke arrives
at t=2000. The claim says the keystroke resets the inactivity timer (so
the timeout would move to t=5000); in the code `startTyping` returns
immediately while `isTyping` is set, so the state is completely
unchanged and the timeout still expires at t=3000. -/
theorem startTyping_keystroke_does_not_reset_timer_cex :
    startTyping "u" "c" 2000 (startTyping "u" "c" 0 ⟨false, [], []⟩) =
      startTyping "u" "c" 0 ⟨false, [], []⟩ ∧
    mapLookup "c" (startTyping "u" "c" 2000
      (startTyping "u" "c" 0 ⟨false, [], []⟩)).typingTimeouts = some 3000 ∧
    ¬ mapLookup "c" (startTyping "u" "c" 2000
      (startTyping "u" "c" 0 ⟨false, [], []⟩)).typingTimeouts = some 5000 := by
  refine ⟨rfl, rfl, ?_⟩
  intro h
  simp [startTyping, mapSet, mapLookup] at h

/-- C6 as amended: the transition from Idle to Typing issues exactly one
remote write setting the typing field to the conversation id and arms a
timeout expiring 3000 ms later; every subsequent keystroke while in the
Typing state is a complete no-op — it issues no further remote write but
also does *not* reset the 3-second timer, so the burst self-clears 3000
ms after it began unless a send intervenes; an explicit stop (timer body
or send) while typing returns the machine to Idle with exactly one write
setting the typing field to null. -/
theorem typing_burst_write_once (u c : String) (t0 t1 : Nat) (s : TypingState)
    (h : s.isTyping = false) :
    (startTyping u c t0 s).writes = s.writes ++ [⟨u, some c⟩] ∧
    (startTyping u c t0 s).isTyping = true ∧
    mapLookup c (startTyping u c t0 s).typingTimeouts = some (t0 + 3000) ∧
    startTyping u c t1 (startTyping u c t0 s) = startTyping u c t0 s ∧
    (stopTyping u c (startTyping u c t0 s)).writes =
      (startTyping u c t0 s).writes ++ [⟨u, none⟩] ∧
    (stopTyping u c (startTyping u c t0 s)).isTyping = false := by
  refine ⟨?_, ?_, ?_, ?_, ?_, ?_⟩ <;>
    simp [startTyping, stopTyping, h, mapLookup_mapSet]

/-- Witness for C6's amended theorem at a concrete idle state. -/
theorem typing_burst_write_once_witness :
    (startTyping "u" "c" 0 ⟨false, [], []⟩).writes = [⟨"u", some "c"⟩] ∧
    mapLookup "c" (startTyping "u" "c" 0
      ⟨false, [], []⟩).typingTimeouts = some 3000 := by
  have h := typing_burst_write_once "u" "c" 0 2000 ⟨false, [], []⟩ rfl
  exact ⟨h.1, h.2.2.1⟩

/-- C10: the `isTyping` flag of `RealTimeService` is a single boolean
shared across all conversations: after `startTyping u c1` has run from an
idle state and before any stop, `startTyping` for *any* user id and *any*
conversation (including a different one) returns the state unchanged —
no remote write is issued and no timer is armed or changed; and once
`stopTyping` has cleared the flag, any further `stopTyping` call for any
conversation leaves the state unchanged, issuing no remote write. -/
theorem isTyping_shared_across_conversations (u c1 : String) (t0 : Nat)
    (s : TypingState) (h : s.isTyping = false) :
    (∀ u2 c2 t1, startTyping u2 c2 t1 (startTyping u c1 t0 s) =
      startTyping u c1 t0 s) ∧
    (stopTyping u c1 (startTyping u c1 t0 s)).isTyping = false ∧
    (∀ u3 c3, stopTyping u3 c3 (stopTyping u c1 (startTyping u c1 t0 s)) =
      stopTyping u c1 (startTyping u c1 t0 s)) := by
  refine ⟨fun u2 c2 t1 => ?_, ?_, fun u3 c3 => ?_⟩ <;>
    simp [startTyping, stopTyping, h]

/-- Witness for C10 at a concrete idle state and two distinct
conversations. -/
theorem isTyping_shared_across_conversations_witness :
    startTyping "u" "c2" 100 (startTyping "u" "c1" 0 ⟨false, [], []⟩) =
      startTyping "u" "c1" 0 ⟨false, [], []⟩ ∧
    (stopTyping "u" "c1" (startTyping "u" "c1" 0 ⟨false, [], []⟩)).isTyping = false := by
  have h := isTyping_shared_across_conversations "u" "c1" 0 ⟨false, [], []⟩ rfl
  exact ⟨h.1 "u" "c2" 100, h.2.1⟩

/-! ### Live listener registry (`firebase.js`) -/

/-- A live `onSnapshot` subscription held open against the remote store:
its unsubscribe capability is identified by `id`. -/
structure LiveListener where
  id : Nat
  topicKey : String
deriving DecidableEq, Repr

/-- `FirebaseService`'s listener bookkeeping: `live` is the set of
listeners actually open against the remote store (a listener leaves it
only when its unsubscribe function is called), and `unsubscribers` is the
`Map` from topic key to the unsubscribe capability (the listener id) most
recently stored under that key. `nextId` supplies fresh listener ids. -/
structure ListenerState where
  nextId : Nat
  live : List LiveListener
  unsubscribers : List (String × Nat)
deriving DecidableEq, Repr

/-- `firebase.js setupMessagesListener(chatId, callback)`: opens a new
`onSnapshot` listener on the chat's messages and stores its unsubscribe
function under key `"messages_" ++ chatId` via `Map.set` — which replaces
the stored entry but does not invoke the previous unsubscribe function,
so any previously open listener on the same key stays live. -/
def setupMessagesListener (chatId : String) (s : ListenerState) : ListenerState :=
  { nextId := s.nextId + 1
    live := s.live ++ [⟨s.nextId, "messages_" ++ chatId⟩]
    unsubscribers := mapSet ("messages_" ++ chatId) s.nextId s.unsubscribers }

/-- `firebase.js setupUserListener(userId, callback)`: same bookkeeping
as `setupMessagesListener`, under key `"user_" ++ userId`. -/
def setupUserListener (userId : String) (s : ListenerState) : ListenerState :=
  { nextId := s.nextId + 1
    live := s.live ++ [⟨s.nextId, "user_" ++ userId⟩]
    unsubscribers := mapSet ("user_" ++ userId) s.nextId s.unsubscribers }

/-- Number of change-callback invocations a single snapshot push on
`topicKey` produces: one per live listener on that topic. -/
def snapshotDeliveryCount (topicKey : String) (s : ListenerState) : Nat :=
  (s.live.filter (fun l => l.topicKey == topicKey)).length

/-- C1 counterexample: from an empty registry, two rapid
`setupMessagesListener` calls for the same chat leave *two* live
subscriptions, so a single snapshot push invokes the change callback
twice, not once — the prior live subscription is never cancelled. -/
theorem watch_same_key_duplicate_delivery_cex :
    snapshotDeliveryCount "messages_c"
      (setupMessagesListener "c" (setupMessagesListener "c" ⟨0, [], []⟩)) = 2 ∧
    ¬ snapshotDeliveryCount "messages_c"
      (setupMessagesListener "c" (setupMessagesListener "c" ⟨0, [], []⟩)) = 1 := by
  constructor <;> decide

/-- C1 as amended: calling the listener setup a second time while a
listener for the same topic key is already registered does *not* cancel
the prior live subscription — `Map.set` merely overwrites the stored
unsubscribe capability with the newer one. After two rapid calls on the
same topic key the number of live subscriptions for that key has grown
by two, a single snapshot push invokes the change callback once per live
subscription (hence twice more than before), and only the second
listener's unsubscribe capability remains in the registry. The same
holds for the user-document listener. -/
theorem setupListeners_replace_without_cancel (chatId userId : String)
    (s : ListenerState) :
    snapshotDeliveryCount ("messages_" ++ chatId)
      (setupMessagesListener chatId (setupMessagesListener chatId s)) =
      snapshotDeliveryCount ("messages_" ++ chatId) s + 2 ∧
    mapLookup ("messages_" ++ chatId)
      (setupMessagesListener chatId (setupMessagesListener chatId s)).unsubscribers =
      some (s.nextId + 1) ∧
    snapshotDeliveryCount ("user_" ++ userId)
      (setupUserListener userId (setupUserListener userId s)) =
      snapshotDeliveryCount ("user_" ++ userId) s + 2 ∧
    mapLookup ("user_" ++ userId)
      (setupUserListener userId (setupUserListener userId s)).unsubscribers =
      some (s.nextId + 1) := by
  refine ⟨?_, ?_, ?_, ?_⟩ <;>
    simp [setupMessagesListener, setupUserListener, snapshotDeliveryCount,
      mapLookup_mapSet, List.filter_append]

/-! ### Messages, reactions and read receipts -/

/-- One entry of a message's `reactions` array
(`{userId, emoji, timestamp}`). -/
structure Reaction where
  userId : String
  emoji : String
  timestamp : Nat
deriving DecidableEq, Repr

/-- A message document of a chat's `messages` subcollection, with the
fields written by `firebase.js sendMessage`. -/
structure Message where
  id : String
  text : String
  senderId : String
  timestamp : Nat
  read : Bool
  readAt : Option Nat
  deletedFor : List String
  edited : Bool
  reactions : List Reaction
deriving DecidableEq, Repr

/-- `realtime.js addReaction(chatId, messageId, userId, emoji)`
transaction body, applied to the message document at time `now`: filters
out any existing reaction of this user with this emoji, then pushes a
fresh `{userId, emoji, timestamp}` entry. -/
def addReaction (userId emoji : String) (now : Nat) (msg : Message) : Message :=
  { msg with reactions :=
      (msg.reactions.filter fun r => r.userId != userId || r.emoji != emoji) ++
        [⟨userId, emoji, now⟩] }

/-- `realtime.js removeReaction(chatId, messageId, userId, emoji)`
transaction body: filters out this user's reaction with this emoji. -/
def removeReaction (userId emoji : String) (msg : Message) : Message :=
  { msg with reactions :=
      msg.reactions.filter fun r => !(r.userId == userId && r.emoji == emoji) }

/-- Number of reactions of the given `(userId, emoji)` pair present on a
message. -/
def reactionCount (userId emoji : String) (msg : Message) : Nat :=
  (msg.reactions.filter fun r => r.userId == userId && r.emoji == emoji).length

/-- C3 counterexample: the react operation wired to the UI
(`chat.js addReaction` → `realtime.js addReaction`) invoked twice in
succession by the same user with the same emoji does *not* return the
message to the zero-reaction state: starting from a message with no
reactions, after two calls exactly one `(userId, emoji)` reaction is
present — the second call replaces the reaction instead of removing it. -/
theorem addReaction_twice_not_toggle_cex :
    reactionCount "u" "👍"
      (addReaction "u" "👍" 1 (addReaction "u" "👍" 0
        ⟨"m1", "hi", "u", 0, false, none, [], false, []⟩)) = 1 ∧
    ¬ reactionCount "u" "👍"
      (addReaction "u" "👍" 1 (addReaction "u" "👍" 0
        ⟨"m1", "hi", "u", 0, false, none, [], false, []⟩)) = 0 := by
  constructor <;> decide

/-- C3 as amended: `addReaction` is a replace, not a toggle — invoking it
twice in succession by the same user with the same emoji is the same as
invoking it once (with the later timestamp), and leaves exactly one
`(userId, emoji)` reaction on the message; the zero-reaction state for
that pair is reached by the separate `removeReaction`, which removes
exactly the caller's reactions with that emoji and leaves all other
reactions unchanged. -/
theorem addReaction_replace_removeReaction_inverse (u e : String)
    (t0 t1 : Nat) (msg : Message) :
    addReaction u e t1 (addReaction u e t0 msg) = addReaction u e t1 msg ∧
    reactionCount u e (addReaction u e t0 msg) = 1 ∧
    reactionCount u e (removeReaction u e (addReaction u e t0 msg)) = 0 ∧
    (removeReaction u e (addReaction u e t0 msg)).reactions =
      (removeReaction u e msg).reactions := by
  have filter_of_imp : ∀ (p q : Reaction → Bool), (∀ r, p r = true → q r = true) →
      ∀ l : List Reaction, (l.filter p).filter q = l.filter p := by
    intro p q h l
    induction l with
    | nil => rfl
    | cons hd tl ih =>
      by_cases hp : p hd = true
      · simp [List.filter_cons, hp, h hd hp, ih]
      · simp only [Bool.not_eq_true] at hp
        simp [List.filter_cons, hp, ih]
  have filter_of_excl : ∀ (p q : Reaction → Bool), (∀ r, p r = true → q r = false) →
      ∀ l : List Reaction, (l.filter p).filter q = [] := by
    intro p q h l
    induction l with
    | nil => rfl
    | cons hd tl ih =>
      by_cases hp : p hd = true
      · simp [List.filter_cons, hp, h hd hp, ih]
      · simp only [Bool.not_eq_true] at hp
        simp [List.filter_cons, hp, ih]
  have hkeep : ∀ r : Reaction, (r.userId != u || r.emoji != e) = true →
      (r.userId == u && r.emoji == e) = false := by
    intro r hr
    by_cases hu : r.userId = u <;> by_cases he : r.emoji = e <;>
      simp_all [hu, he]
  have hkeep' : ∀ r : Reaction, (r.userId != u || r.emoji != e) = true →
      (!(r.userId == u && r.emoji == e)) = true := by
    intro r hr
    simp [hkeep r hr]
  have hnot : ∀ r : Reaction, (!(r.userId == u && r.emoji == e)) = true →
      (r.userId != u || r.emoji != e) = true := by
    intro r hr
    by_cases hu : r.userId = u <;> by_cases he : r.emoji = e <;>
      simp_all [hu, he]
  have hnew : ∀ t : Nat,
      ((Reaction.mk u e t).userId != u || (Reaction.mk u e t).emoji != e) = false := by
    intro t
    simp
  refine ⟨?_, ?_, ?_, ?_⟩
  · simp only [addReaction, List.filter_append]
    rw [filter_of_imp _ _ (fun r hr => hr) msg.reactions]
    simp [List.filter_cons, hnew t0]
  · simp only [reactionCount, addReaction, List.filter_append]
    rw [filter_of_excl _ _ hkeep msg.reactions]
    simp [List.filter_cons]
  · simp only [reactionCount, removeReaction, addReaction, List.filter_append]
    rw [filter_of_imp _ _ hkeep' msg.reactions, filter_of_excl _ _ hkeep msg.reactions]
    simp [List.filter_cons]
  · simp only [removeReaction, addReaction, List.filter_append]
    rw [filter_of_imp _ _ hkeep' msg.reactions]
    have : (msg.reactions.filter fun r => r.userId != u || r.emoji != e) =
        msg.reactions.filter fun r => !(r.userId == u && r.emoji == e) := by
      apply List.filter_congr
      intro r _
      by_cases hu : r.userId = u <;> by_cases he : r.emoji = e <;> simp [hu, he, bne]
    simp [List.filter_cons, this]

/-- `firebase.js markMessagesAsRead(chatId, userId)` applied to the
chat's message list at time `now`: the batched update sets `read = true`
and `readAt` on exactly the messages matching the query
`senderId != userId && read == false`. -/
def markMessagesAsRead (userId : String) (now : Nat)
    (messages : List Message) : List Message :=
  messages.map fun m =>
    if m.senderId ≠ userId ∧ m.read = false
    then { m with read := true, readAt := some now }
    else m

/-- C7: marking all messages of a chat read sets `read = true` and a
`readAt` timestamp on exactly those messages whose sender is the
counterpart (`senderId ≠ reader`) and whose `read` flag was false
(leaving their other fields intact), leaves every message authored by
the reader itself — and every already-read counterpart message —
unchanged, and resets the reader's `unreadCount` entry to 0. -/
theorem markMessagesAsRead_spec (userId : String) (now : Nat)
    (messages : List Message) (unreadCount : List (String × Nat)) :
    List.Forall₂ (fun m m' =>
        (m.senderId = userId → m' = m) ∧
        (m.read = true → m' = m) ∧
        (m.senderId ≠ userId → m.read = false →
          m'.read = true ∧ m'.readAt = some now ∧ m'.id = m.id ∧
          m'.text = m.text ∧ m'.senderId = m.senderId ∧
          m'.timestamp = m.timestamp ∧ m'.deletedFor = m.deletedFor ∧
          m'.edited = m.edited ∧ m'.reactions = m.reactions))
      messages (markMessagesAsRead userId now messages) ∧
    mapLookup userId (mapSet userId 0 unreadCount) = some 0 := by
  constructor
  · rw [markMessagesAsRead, List.forall₂_map_right_iff]
    apply List.forall₂_same.mpr
    intro m _
    refine ⟨fun hs => ?_, fun hr => ?_, fun hs hr => ?_⟩
    · rw [if_neg]
      rintro ⟨h1, -⟩
      exact h1 hs
    · rw [if_neg]
      rintro ⟨-, h2⟩
      rw [hr] at h2
      cases h2
    · rw [if_pos ⟨hs, hr⟩]
      exact ⟨rfl, rfl, rfl, rfl, rfl, rfl, rfl, rfl, rfl⟩
  · exact mapLookup_mapSet userId 0 unreadCount

/-- Witness for C7 on a two-message chat: the counterpart's unread
message gets `read`/`readAt` set, the reader's own message is left
unchanged, and the reader's unread count entry is reset to 0. -/
theorem markMessagesAsRead_spec_witness :
    markMessagesAsRead "r" 7
      [⟨"m1", "hi", "o", 0, false, none, [], false, []⟩,
       ⟨"m2", "yo", "r", 1, false, none, [], false, []⟩] =
      [⟨"m1", "hi", "o", 0, true, some 7, [], false, []⟩,
       ⟨"m2", "yo", "r", 1, false, none, [], false, []⟩] ∧
    mapLookup "r" (mapSet "r" 0 [("o", 3), ("r", 2)]) = some 0 := by
  exact ⟨by decide, (markMessagesAsRead_spec "r" 7 [] [("o", 3), ("r", 2)]).2⟩

/-! ### The remote document store -/

/-- A `chats` collection document, with the fields written by
`firebase.js createChat` (the `typing` map is irrelevant to the claims
and omitted). -/
structure Chat where
  id : String
  members : List String
  lastMessage : String
  lastMessageTime : Option Int
  unreadCount : List (String × Nat)
  createdAt : Option Int
deriving DecidableEq, Repr

/-- A `chatRequests` collection document. -/
structure ChatRequest where
  id : String
  fromUserId : String
  toUserId : String
  message : String
  status : String
  createdAt : Int
deriving DecidableEq, Repr

/-- A `users` collection document, restricted to the fields the claims
touch. -/
structure UserDoc where
  uid : String
  blockedUsers : List String
deriving DecidableEq, Repr

/-- The remote store: the three collections the moderation and request
workflow operates on. -/
structure Store where
  users : List UserDoc
  chats : List Chat
  requests : List ChatRequest
deriving DecidableEq, Repr

/-- `getDoc` on the `chats` collection (`firebase.js getChat`). -/
def getChatDoc (chatId : String) (chats : List Chat) : Option Chat :=
  chats.find? fun c => c.id == chatId

/-- `setDoc` on the `chats` collection: unconditionally overwrites the
document with this id if present, otherwise creates it. -/
def setChatDoc (c : Chat) : List Chat → List Chat
  | [] => [c]
  | d :: ds => if d.id == c.id then c :: ds else d :: setChatDoc c ds

theorem getChatDoc_setChatDoc (c : Chat) (l : List Chat) :
    getChatDoc c.id (setChatDoc c l) = some c := by
  induction l with
  | nil => simp [getChatDoc, setChatDoc]
  | cons d ds ih =>
    by_cases h : d.id == c.id
    · simp [getChatDoc, setChatDoc, h]
    · simp only [Bool.not_eq_true] at h
      simpa [getChatDoc, setChatDoc, h] using ih

theorem mem_setChatDoc_of_ne (c d : Chat) (l : List Chat)
    (hd : d ∈ l) (hne : d.id ≠ c.id) : d ∈ setChatDoc c l := by
  induction l with
  | nil => cases hd
  | cons e es ih =>
    rcases List.mem_cons.mp hd with rfl | hmem
    · have : (d.id == c.id) = false := by simpa using hne
      simp [setChatDoc, this]
    · by_cases h : e.id == c.id
      · simp [setChatDoc, h, List.mem_cons, hmem]
      · simp only [Bool.not_eq_true] at h
        simp [setChatDoc, h, List.mem_cons, ih hmem]

/-- `firebase.js createChat(userId1, userId2)` at time `now`
(`serverTimestamp`): builds the initial chat document for the pair and
writes it with `setDoc`, unconditionally, returning the deterministic
chat id. -/
def createChat (userId1 userId2 : String) (now : Int) (s : Store) :
    String × Store :=
  let chatId := generateChatId userId1 userId2
  let chatDoc : Chat :=
    { id := chatId
      members := [userId1, userId2]
      lastMessage := ""
      lastMessageTime := none
      unreadCount := mapSet userId2 0 (mapSet userId1 0 [])
      createdAt := some now }
  (chatId, { s with chats := setChatDoc chatDoc s.chats })

/-- The pre-existing conversation of the C4 counterexample, already
carrying a last message and an unread count. -/
def c4Chat : Chat := ⟨"a_b", ["a", "b"], "hello", some 5, [("a", 0), ("b", 1)], some 1⟩

/-- The C4 counterexample store. -/
def c4Store : Store := ⟨[], [c4Chat], []⟩

/-- C4 counterexample: calling `createChat` for a pair whose
conversation already exists returns the existing id but is *not* a
no-op: `setDoc` overwrites the stored record, resetting `lastMessage`,
`lastMessageTime`, `unreadCount` and `createdAt`. -/
theorem createChat_overwrites_existing_cex :
    (createChat "a" "b" 9 c4Store).1 = "a_b" ∧
    getChatDoc "a_b" (createChat "a" "b" 9 c4Store).2.chats =
      some ⟨"a_b", ["a", "b"], "", none, [("a", 0), ("b", 0)], some 9⟩ ∧
    ¬ getChatDoc "a_b" (createChat "a" "b" 9 c4Store).2.chats = some c4Chat := by
  have hab : generateChatId "a" "b" = "a_b" :=
    (generateChatId_symm_canonical "a" "b").2.1 (String.le_iff_toList_le.mpr (by decide))
  refine ⟨?_, ?_, ?_⟩ <;>
    simp only [createChat, hab] <;> decide

/-- C4 as amended: `createChat` for a pair whose conversation already
exists returns the same deterministic id, but the stored record is *not*
left unchanged — it is unconditionally overwritten with a fresh initial
document (`lastMessage` empty, `lastMessageTime` null, both unread
counts 0, `createdAt` the time of the call), while all other
conversations, users and requests are untouched. -/
theorem createChat_resets_chat_document (u1 u2 : String) (now : Int) (s : Store) :
    (createChat u1 u2 now s).1 = generateChatId u1 u2 ∧
    getChatDoc (generateChatId u1 u2) (createChat u1 u2 now s).2.chats =
      some ⟨generateChatId u1 u2, [u1, u2], "", none,
            mapSet u2 0 (mapSet u1 0 []), some now⟩ ∧
    (∀ c ∈ s.chats, c.id ≠ generateChatId u1 u2 →
      c ∈ (createChat u1 u2 now s).2.chats) ∧
    (createChat u1 u2 now s).2.users = s.users ∧
    (createChat u1 u2 now s).2.requests = s.requests := by
  refine ⟨rfl, ?_, ?_, rfl, rfl⟩
  · exact getChatDoc_setChatDoc
      ⟨generateChatId u1 u2, [u1, u2], "", none,
        mapSet u2 0 (mapSet u1 0 []), some now⟩ s.chats
  · intro c hc hne
    exact mem_setChatDoc_of_ne _ c s.chats hc hne

/-- Witness for C4's amended theorem: on the concrete store that already
holds the `"a_b"` conversation, the call returns id `"a_b"`, the stored
record afterwards is the fresh initial document, and the unrelated
conversation survives. -/
theorem createChat_resets_chat_document_witness :
    getChatDoc (generateChatId "a" "b")
      (createChat "a" "b" 9 c4Store).2.chats =
      some ⟨generateChatId "a" "b", ["a", "b"], "", none,
            mapSet "b" 0 (mapSet "a" 0 []), some 9⟩ ∧
    c4Chat.id ≠ "zzz" ∧
    (createChat "a" "b" 9 c4Store).2.users = c4Store.users := by
  refine ⟨(createChat_resets_chat_document "a" "b" 9 c4Store).2.1, by decide,
    (createChat_resets_chat_document "a" "b" 9 c4Store).2.2.2.1⟩

/-! ### Chat requests (`firebase.js` / `realtime.js`) -/

/-- `firebase.js isUserBlocked(userId, targetUserId)`: whether `userId`'s
`blockedUsers` array contains `targetUserId` (false when the user
document is missing, matching the caller's
`result.success && result.isBlocked` check). -/
def isUserBlocked (userId targetUserId : String) (s : Store) : Bool :=
  match s.users.find? (fun u => u.uid == userId) with
  | some u => u.blockedUsers.contains targetUserId
  | none => false

/-- `firebase.js getChatRequest(fromUserId, toUserId)`: the first request
document for the ordered pair, with *no* filter on `status`. -/
def getChatRequest (fromUserId toUserId : String) (s : Store) : Option ChatRequest :=
  s.requests.find? fun r => r.fromUserId == fromUserId && r.toUserId == toUserId

/-- `firebase.js sendChatRequest(fromUserId, toUserId, message)` at time
`now`, with `newId` the id `addDoc` assigns: fails when any request for
the ordered pair already exists (whatever its status), then when the
conversation for the pair already exists; otherwise appends one new
request with status `"pending"`. -/
def sendChatRequest (fromUserId toUserId message newId : String) (now : Int)
    (s : Store) : Except String Store :=
  if (getChatRequest fromUserId toUserId s).isSome then
    Except.error "تم إرسال طلب المحادثة مسبقاً"
  else if (getChatDoc (generateChatId fromUserId toUserId) s.chats).isSome then
    Except.error "المحادثة موجودة بالفعل"
  else
    Except.ok { s with requests :=
      s.requests ++ [⟨newId, fromUserId, toUserId, message, "pending", now⟩] }

/-- `realtime.js sendChatRequestRealTime(fromUserId, toUserId, message)`:
first rejects when the recipient has blocked the sender, then delegates
to `sendChatRequest`. -/
def sendChatRequestRealTime (fromUserId toUserId message newId : String)
    (now : Int) (s : Store) : Except String Store :=
  if isUserBlocked toUserId fromUserId s then
    Except.error "لا يمكنك إرسال طلب محادثة إلى هذا المستخدم"
  else sendChatRequest fromUserId toUserId message newId now s

/-- The C8 counterexample store: a *rejected* (non-pending) request from
`"f"` to `"t"` exists, no conversation exists, and `"t"` does not block
`"f"`. -/
def c8Store : Store := ⟨[⟨"f", []⟩, ⟨"t", []⟩], [], [⟨"r1", "f", "t", "", "rejected", 0⟩]⟩

/-- C8 counterexample: no *pending* request for the ordered pair
`("f","t")` exists and the recipient does not block the sender, so the
claim says a new pending request is created — but the code's duplicate
check matches requests of *any* status and fails with the
duplicate-request error, creating nothing. -/
theorem sendChatRequest_nonpending_duplicate_cex :
    (c8Store.requests.filter fun r =>
      r.fromUserId == "f" && r.toUserId == "t" && r.status == "pending").length = 0 ∧
    isUserBlocked "t" "f" c8Store = false ∧
    sendChatRequestRealTime "f" "t" "" "r2" 1 c8Store =
      Except.error "تم إرسال طلب المحادثة مسبقاً" := by
  refine ⟨by decide, by decide, by rfl⟩

/-- C8 as amended: sending a chat request from `F` to `T` fails without
creating a request document exactly when a request for the ordered pair
`(F, T)` of *any* status already exists (duplicate-request error), or
the conversation for the pair already exists (chat-exists error), or
`T`'s blocked set contains `F` (already-blocked error); in every other
state it appends exactly one new request with status `"pending"`,
leaving users and chats untouched. -/
theorem sendChatRequestRealTime_outcomes (F T msg id : String) (now : Int)
    (s : Store) :
    ((∃ err, sendChatRequestRealTime F T msg id now s = Except.error err) ↔
      (isUserBlocked T F s = true ∨ (getChatRequest F T s).isSome = true ∨
        (getChatDoc (generateChatId F T) s.chats).isSome = true)) ∧
    (∀ s', sendChatRequestRealTime F T msg id now s = Except.ok s' →
      s'.requests = s.requests ++ [⟨id, F, T, msg, "pending", now⟩] ∧
      s'.chats = s.chats ∧ s'.users = s.users) := by
  by_cases hb : isUserBlocked T F s = true
  · refine ⟨⟨fun _ => Or.inl hb, fun _ => ?_⟩, fun s' hs' => ?_⟩
    · exact ⟨"لا يمكنك إرسال طلب محادثة إلى هذا المستخدم",
        by simp [sendChatRequestRealTime, hb]⟩
    · simp [sendChatRequestRealTime, hb] at hs'
  · simp only [Bool.not_eq_true] at hb
    by_cases hr : (getChatRequest F T s).isSome = true
    · refine ⟨⟨fun _ => Or.inr (Or.inl hr), fun _ => ?_⟩, fun s' hs' => ?_⟩
      · exact ⟨"تم إرسال طلب المحادثة مسبقاً",
          by simp [sendChatRequestRealTime, sendChatRequest, hb, hr]⟩
      · simp [sendChatRequestRealTime, sendChatRequest, hb, hr] at hs'
    · simp only [Bool.not_eq_true] at hr
      by_cases hc : (getChatDoc (generateChatId F T) s.chats).isSome = true
      · refine ⟨⟨fun _ => Or.inr (Or.inr hc), fun _ => ?_⟩, fun s' hs' => ?_⟩
        · exact ⟨"المحادثة موجودة بالفعل",
            by simp [sendChatRequestRealTime, sendChatRequest, hb, hr, hc]⟩
        · simp [sendChatRequestRealTime, sendChatRequest, hb, hr, hc] at hs'
      · simp only [Bool.not_eq_true] at hc
        refine ⟨⟨fun ⟨err, herr⟩ => ?_, fun h => ?_⟩, fun s' hs' => ?_⟩
        · simp [sendChatRequestRealTime, sendChatRequest, hb, hr, hc] at herr
        · rcases h with h | h | h
          · rw [hb] at h; cases h
          · rw [hr] at h; cases h
          · rw [hc] at h; cases h
        · simp only [sendChatRequestRealTime, sendChatRequest, hb, hr, hc,
            Bool.false_eq_true, if_false, Except.ok.injEq] at hs'
          subst hs'
          exact ⟨rfl, rfl, rfl⟩

/-- Witness for C8's amended theorem: from the empty store the call
succeeds and the success case of the theorem yields the appended pending
request. -/
theorem sendChatRequestRealTime_outcomes_witness :
    sendChatRequestRealTime "f" "t" "hi" "r1" 0 ⟨[], [], []⟩ =
      Except.ok ⟨[], [], [⟨"r1", "f", "t", "hi", "pending", 0⟩]⟩ ∧
    (⟨[], [], [⟨"r1", "f", "t", "hi", "pending", 0⟩]⟩ : Store).requests =
      ([] : List ChatRequest) ++ [⟨"r1", "f", "t", "hi", "pending", 0⟩] := by
  refine ⟨by rfl, ?_⟩
  exact ((sendChatRequestRealTime_outcomes "f" "t" "hi" "r1" 0 ⟨[], [], []⟩).2
    ⟨[], [], [⟨"r1", "f", "t", "hi", "pending", 0⟩]⟩ (by rfl)).1

/-! ### Block system (`firebase.js toggleBlockUser`) -/

/-- Firestore `arrayUnion`: adds the element unless already present. -/
def arrayUnion (x : String) (l : List String) : List String :=
  if l.contains x then l else l ++ [x]

/-- Firestore `arrayRemove`: removes every occurrence of the element. -/
def arrayRemove (x : String) (l : List String) : List String :=
  l.filter fun y => y != x

/-- First remote write of the block branch:
`updateDoc(userRef, { blockedUsers: arrayUnion(targetUserId) })`. -/
def blockFlagWrite (userId targetUserId : String) (s : Store) : Store :=
  { s with users := s.users.map fun u =>
      if u.uid == userId
      then { u with blockedUsers := arrayUnion targetUserId u.blockedUsers }
      else u }

/-- The unblock branch's single write:
`updateDoc(userRef, { blockedUsers: arrayRemove(targetUserId) })`. -/
def unblockFlagWrite (userId targetUserId : String) (s : Store) : Store :=
  { s with users := s.users.map fun u =>
      if u.uid == userId
      then { u with blockedUsers := arrayRemove targetUserId u.blockedUsers }
      else u }

/-- Second remote write of the block branch: `deleteDoc` on the pair's
chat document. -/
def chatDeleteWrite (chatId : String) (s : Store) : Store :=
  { s with chats := s.chats.filter fun c => c.id != chatId }

/-- Third remote write of the block branch: the committed batch setting
`status = "blocked"` on every *pending* request from the target to the
blocker (requests in the opposite direction are not part of the query). -/
def requestsBlockBatch (userId targetUserId : String) (s : Store) : Store :=
  { s with requests := s.requests.map fun r =>
      if r.fromUserId == targetUserId && r.toUserId == userId && r.status == "pending"
      then { r with status := "blocked" }
      else r }

/-- Result of `toggleBlockUser`: the reported `action` together with the
trace of store states after each successive committed remote write. -/
structure BlockResult where
  action : String
  trace : List Store
deriving DecidableEq, Repr

/-- The conditional second step of the block branch: `getChat` followed
by `deleteDoc` when the pair's chat exists (the state is unchanged when
it does not). -/
def blockStep2 (userId targetUserId : String) (s1 : Store) : Store :=
  if (getChatDoc (generateChatId userId targetUserId) s1.chats).isSome
  then chatDeleteWrite (generateChatId userId targetUserId) s1
  else s1

/-- The block branch's write sequence: state after the `arrayUnion`
update, then after the conditional chat `deleteDoc` (a no-op when the
pair has no chat), then after the request batch (a no-op when no pending
request from the target matches). -/
def blockTrace (userId targetUserId : String) (s : Store) : List Store :=
  let s1 := blockFlagWrite userId targetUserId s
  let s2 := blockStep2 userId targetUserId s1
  [s1, s2, requestsBlockBatch userId targetUserId s2]

/-- `firebase.js toggleBlockUser(userId, targetUserId)`: errors when the
user document is missing; unblocks (one write) when the target is
already blocked; otherwise performs the block branch's three successive
separate remote writes. -/
def toggleBlockUser (userId targetUserId : String) (s : Store) :
    Except String BlockResult :=
  match s.users.find? (fun u => u.uid == userId) with
  | none => Except.error "المستخدم غير موجود"
  | some userData =>
    if userData.blockedUsers.contains targetUserId then
      Except.ok ⟨"unblocked", [unblockFlagWrite userId targetUserId s]⟩
    else
      Except.ok ⟨"blocked", blockTrace userId targetUserId s⟩

theorem contains_arrayUnion (x : String) (l : List String) :
    (arrayUnion x l).contains x = true := by
  unfold arrayUnion
  by_cases h : l.contains x = true
  · rw [if_pos h]
    exact h
  · rw [if_neg h]
    simp

theorem find?_users_map (userId : String) (g : UserDoc → UserDoc)
    (hg : ∀ v, (g v).uid = v.uid) (l : List UserDoc) :
    (l.map g).find? (fun v => v.uid == userId) =
      ((l.find? (fun v => v.uid == userId)).map g) := by
  induction l with
  | nil => rfl
  | cons hd tl ih =>
    by_cases h : (hd.uid == userId) = true
    · have h' : ((g hd).uid == userId) = true := by rw [hg]; exact h
      simp [List.find?, h, h']
    · simp only [Bool.not_eq_true] at h
      have h' : ((g hd).uid == userId) = false := by rw [hg]; exact h
      simp [List.find?, h, h', ih]

theorem getChatDoc_delete (cid : String) (l : List Chat) :
    getChatDoc cid (l.filter fun c => c.id != cid) = none := by
  induction l with
  | nil => rfl
  | cons hd tl ih =>
    by_cases h : (hd.id == cid) = true
    · have : (hd.id != cid) = false := by simp [bne, h]
      simpa [List.filter_cons, this] using ih
    · simp only [Bool.not_eq_true] at h
      have hb : (hd.id != cid) = true := by simp [bne, h]
      simpa [getChatDoc, List.filter_cons, hb, List.find?, h] using ih

theorem blockStep2_users (u t : String) (s1 : Store) :
    (blockStep2 u t s1).users = s1.users := by
  unfold blockStep2
  by_cases h : (getChatDoc (generateChatId u t) s1.chats).isSome = true <;>
    simp [h, chatDeleteWrite]

theorem blockStep2_requests (u t : String) (s1 : Store) :
    (blockStep2 u t s1).requests = s1.requests := by
  unfold blockStep2
  by_cases h : (getChatDoc (generateChatId u t) s1.chats).isSome = true <;>
    simp [h, chatDeleteWrite]

theorem blockStep2_chats_none (u t : String) (s1 : Store) :
    getChatDoc (generateChatId u t) (blockStep2 u t s1).chats = none := by
  unfold blockStep2
  by_cases h : (getChatDoc (generateChatId u t) s1.chats).isSome = true
  · rw [if_pos h]
    simpa [chatDeleteWrite] using getChatDoc_delete (generateChatId u t) s1.chats
  · have h' : getChatDoc (generateChatId u t) s1.chats = none := by
      cases hc : getChatDoc (generateChatId u t) s1.chats with
      | none => rfl
      | some c => rw [hc] at h; simp at h
    rw [if_neg h]
    exact h'

theorem blockStep2_mem_chats (u t : String) (s1 : Store) (c : Chat)
    (hc : c ∈ s1.chats) (hne : c.id ≠ generateChatId u t) :
    c ∈ (blockStep2 u t s1).chats := by
  unfold blockStep2
  by_cases h : (getChatDoc (generateChatId u t) s1.chats).isSome = true
  · have hbne : (c.id != generateChatId u t) = true := by simp [bne, hne]
    simp [h, chatDeleteWrite, List.mem_filter, hc, hbne]
  · simp [h, hc]

/-- The C2 counterexample store: `"a"` does not yet block `"b"`, a
conversation `"a_b"` exists, and a pending request exists in each
direction. -/
def c2Store : Store :=
  ⟨[⟨"a", []⟩, ⟨"b", []⟩],
   [⟨"a_b", ["a", "b"], "hi", some 5, [("a", 0), ("b", 1)], some 1⟩],
   [⟨"r1", "b", "a", "", "pending", 0⟩, ⟨"r2", "a", "b", "", "pending", 0⟩]⟩

/-- State of the C2 counterexample after the first remote write. -/
def c2AfterFlag : Store :=
  ⟨[⟨"a", ["b"]⟩, ⟨"b", []⟩],
   [⟨"a_b", ["a", "b"], "hi", some 5, [("a", 0), ("b", 1)], some 1⟩],
   [⟨"r1", "b", "a", "", "pending", 0⟩, ⟨"r2", "a", "b", "", "pending", 0⟩]⟩

/-- State of the C2 counterexample after the chat deletion. -/
def c2AfterDelete : Store :=
  ⟨[⟨"a", ["b"]⟩, ⟨"b", []⟩], [],
   [⟨"r1", "b", "a", "", "pending", 0⟩, ⟨"r2", "a", "b", "", "pending", 0⟩]⟩

/-- Final state of the C2 counterexample. -/
def c2Final : Store :=
  ⟨[⟨"a", ["b"]⟩, ⟨"b", []⟩], [],
   [⟨"r1", "b", "a", "", "blocked", 0⟩, ⟨"r2", "a", "b", "", "pending", 0⟩]⟩

/-- C2 counterexample: blocking `"b"` from `"a"` reaches an intermediate
store state (after the `arrayUnion` write, before the chat `deleteDoc`)
in which `"b"` is already in `"a"`'s blocked set while the conversation
between them still exists — so the effects are not applied atomically —
and in the *final* state the pending request from the blocker `"a"` to
the target `"b"` is still `"pending"`, so not every pending request
between them transitions to `"blocked"`. -/
theorem toggleBlockUser_not_atomic_cex :
    toggleBlockUser "a" "b" c2Store =
      Except.ok ⟨"blocked", [c2AfterFlag, c2AfterDelete, c2Final]⟩ ∧
    isUserBlocked "a" "b" c2AfterFlag = true ∧
    getChatDoc "a_b" c2AfterFlag.chats =
      some ⟨"a_b", ["a", "b"], "hi", some 5, [("a", 0), ("b", 1)], some 1⟩ ∧
    c2Final.requests.find? (fun r => r.id == "r2") =
      some ⟨"r2", "a", "b", "", "pending", 0⟩ := by
  have hab : generateChatId "a" "b" = "a_b" :=
    (generateChatId_symm_canonical "a" "b").2.1 (String.le_iff_toList_le.mpr (by decide))
  refine ⟨?_, by decide, by decide, by decide⟩
  simp only [toggleBlockUser, blockTrace, blockStep2, hab]
  rfl

/-- C2 as amended: when the blocker's user document exists and the
target is not yet blocked, `toggleBlockUser` performs the block branch —
but through three successive *separate* remote writes, not atomically.
In the final state all the cascading effects hold: the target is in the
blocker's blocked set, the conversation between them is deleted (other
conversations survive), and every *pending request from the target to
the blocker* — but not requests from the blocker to the target — has
status `"blocked"`, all other requests being unchanged. The effects are
not atomic: the state reached after the first write already has the
block flag set while the conversations and requests are untouched. -/
theorem toggleBlockUser_block_effects (userId targetUserId : String) (s : Store)
    (u : UserDoc) (hu : s.users.find? (fun v => v.uid == userId) = some u)
    (hnb : u.blockedUsers.contains targetUserId = false) :
    toggleBlockUser userId targetUserId s =
      Except.ok ⟨"blocked", blockTrace userId targetUserId s⟩ ∧
    (∀ s1, (blockTrace userId targetUserId s).head? = some s1 →
      isUserBlocked userId targetUserId s1 = true ∧
      s1.chats = s.chats ∧ s1.requests = s.requests) ∧
    (∀ sf, (blockTrace userId targetUserId s).getLast? = some sf →
      isUserBlocked userId targetUserId sf = true ∧
      getChatDoc (generateChatId userId targetUserId) sf.chats = none ∧
      (∀ c ∈ s.chats, c.id ≠ generateChatId userId targetUserId → c ∈ sf.chats) ∧
      List.Forall₂ (fun r r' =>
        (r.fromUserId = targetUserId ∧ r.toUserId = userId ∧ r.status = "pending" →
          r' = { r with status := "blocked" }) ∧
        (¬(r.fromUserId = targetUserId ∧ r.toUserId = userId ∧ r.status = "pending") →
          r' = r))
        s.requests sf.requests) := by
  have hg : ∀ v : UserDoc, ((fun u => if u.uid == userId
      then { u with blockedUsers := arrayUnion targetUserId u.blockedUsers }
      else u) v).uid = v.uid := by
    intro v
    by_cases h : (v.uid == userId) = true <;> simp [h]
  have hpu : (u.uid == userId) = true := by
    have h := List.find?_some hu
    simpa using h
  have hS1users : isUserBlocked userId targetUserId
      (blockFlagWrite userId targetUserId s) = true := by
    unfold isUserBlocked blockFlagWrite
    rw [find?_users_map userId _ hg s.users, hu]
    show ((if (u.uid == userId) = true
        then { u with blockedUsers := arrayUnion targetUserId u.blockedUsers }
        else u).blockedUsers.contains targetUserId) = true
    rw [if_pos hpu]
    exact contains_arrayUnion targetUserId u.blockedUsers
  have htrace : blockTrace userId targetUserId s =
      [blockFlagWrite userId targetUserId s,
       blockStep2 userId targetUserId (blockFlagWrite userId targetUserId s),
       requestsBlockBatch userId targetUserId
         (blockStep2 userId targetUserId (blockFlagWrite userId targetUserId s))] := rfl
  refine ⟨?_, ?_, ?_⟩
  · unfold toggleBlockUser
    rw [hu]
    show (if u.blockedUsers.contains targetUserId then
        Except.ok (BlockResult.mk "unblocked" [unblockFlagWrite userId targetUserId s])
      else Except.ok (BlockResult.mk "blocked" (blockTrace userId targetUserId s))) =
      (Except.ok (BlockResult.mk "blocked" (blockTrace userId targetUserId s)) :
        Except String BlockResult)
    rw [if_neg (by rw [hnb]; simp)]
  · intro s1 ht
    rw [htrace] at ht
    simp only [List.head?_cons, Option.some.injEq] at ht
    subst ht
    exact ⟨hS1users, rfl, rfl⟩
  · intro sf hsf
    rw [htrace] at hsf
    have hlast : ∀ a b c : Store, ([a, b, c].getLast? : Option Store) = some c := by
      intro a b c
      rfl
    rw [hlast] at hsf
    simp only [Option.some.injEq] at hsf
    subst hsf
    refine ⟨?_, ?_, ?_, ?_⟩
    · have husers : (requestsBlockBatch userId targetUserId
          (blockStep2 userId targetUserId (blockFlagWrite userId targetUserId s))).users =
          (blockFlagWrite userId targetUserId s).users := by
        simpa [requestsBlockBatch] using
          blockStep2_users userId targetUserId (blockFlagWrite userId targetUserId s)
      simp only [isUserBlocked] at hS1users ⊢
      rw [husers]
      exact hS1users
    · have hchats : (requestsBlockBatch userId targetUserId
          (blockStep2 userId targetUserId (blockFlagWrite userId targetUserId s))).chats =
          (blockStep2 userId targetUserId (blockFlagWrite userId targetUserId s)).chats := rfl
      rw [hchats]
      exact blockStep2_chats_none userId targetUserId (blockFlagWrite userId targetUserId s)
    · intro c hc hne
      have hcs1 : c ∈ (blockFlagWrite userId targetUserId s).chats := hc
      exact blockStep2_mem_chats userId targetUserId
        (blockFlagWrite userId targetUserId s) c hcs1 hne
    · have hreq : (requestsBlockBatch userId targetUserId
          (blockStep2 userId targetUserId (blockFlagWrite userId targetUserId s))).requests =
          s.requests.map fun r =>
            if r.fromUserId == targetUserId && r.toUserId == userId && r.status == "pending"
            then { r with status := "blocked" }
            else r := by
        simp only [requestsBlockBatch]
        rw [blockStep2_requests]
        rfl
      rw [hreq, List.forall₂_map_right_iff]
      apply List.forall₂_same.mpr
      intro r _
      constructor
      · rintro ⟨h1, h2, h3⟩
        have hcond : (r.fromUserId == targetUserId && r.toUserId == userId &&
            r.status == "pending") = true := by
          simp [h1, h2, h3]
        rw [if_pos hcond]
      · intro hn
        have hcond : (r.fromUserId == targetUserId && r.toUserId == userId &&
            r.status == "pending") = false := by
          by_cases h1 : r.fromUserId = targetUserId
          · by_cases h2 : r.toUserId = userId
            · by_cases h3 : r.status = "pending"
              · exact absurd ⟨h1, h2, h3⟩ hn
              · simp [h3]
            · simp [h2]
          · simp [h1]
        rw [if_neg]
        simp [hcond]

/-- Witness for C2's amended theorem at the concrete counterexample
store: the call runs the block branch, and the state after the first
write already has the flag set while the chats are untouched. -/
theorem toggleBlockUser_block_effects_witness :
    toggleBlockUser "a" "b" c2Store =
      Except.ok ⟨"blocked", blockTrace "a" "b" c2Store⟩ ∧
    isUserBlocked "a" "b" (blockFlagWrite "a" "b" c2Store) = true ∧
    (blockFlagWrite "a" "b" c2Store).chats = c2Store.chats := by
  have h := toggleBlockUser_block_effects "a" "b" c2Store ⟨"a", []⟩ (by rfl) (by rfl)
  exact ⟨h.1, (h.2.1 _ rfl).1, (h.2.1 _ rfl).2.1⟩

/-! ### Chat roster (`realtime.js setupChatsListUpdates`) -/

/-- The filter of `setupChatsListUpdates`: keep a chat unless its
counterpart (`members.find(id => id !== userId)`) is in the viewer's
blocked list (a chat with no counterpart passes, since
`includes(undefined)` is false). -/
def rosterKeep (userId : String) (blockedUserIds : List String) (chat : Chat) : Bool :=
  match chat.members.find? (fun id => id != userId) with
  | some otherUserId => !(blockedUserIds.contains otherUserId)
  | none => true

/-- A chat's sort time:
`lastMessageTime?.toDate?.() || createdAt?.toDate?.() || new Date(0)`. -/
def chatSortTime (c : Chat) : Int :=
  match c.lastMessageTime with
  | some t => t
  | none =>
    match c.createdAt with
    | some t => t
    | none => 0

/-- The viewer's unread count of a chat: `chat.unreadCount?.[userId] || 0`. -/
def chatUnread (userId : String) (c : Chat) : Nat :=
  match mapLookup userId c.unreadCount with
  | some n => n
  | none => 0

/-- The comparator of `setupChatsListUpdates`: pinned chats first, then
chats with unread messages first, then last-message time descending
(falling back to `createdAt`, then to epoch 0). -/
def chatCompare (pinnedChats : List String) (userId : String) (a b : Chat) : Int :=
  if pinnedChats.contains a.id && !pinnedChats.contains b.id then -1
  else if !pinnedChats.contains a.id && pinnedChats.contains b.id then 1
  else if chatUnread userId a > 0 ∧ chatUnread userId b = 0 then -1
  else if chatUnread userId a = 0 ∧ chatUnread userId b > 0 then 1
  else chatSortTime b - chatSortTime a

/-- The roster recomputation of `setupChatsListUpdates`: filter out
chats whose counterpart is blocked, then sort with the comparator.
`Array.prototype.sort` is a stable sort; it is realized here by
insertion sort, which inserts each element before the comparator-equal
elements that followed it and therefore keeps comparator-ties in input
order. -/
def chatsListOrder (userId : String) (blockedUserIds pinnedChats : List String)
    (chats : List Chat) : List Chat :=
  List.insertionSort (fun a b => chatCompare pinnedChats userId a b ≤ 0)
    (chats.filter (rosterKeep userId blockedUserIds))

theorem subCompare_total (ua ub : Nat) (ta tb : Int) :
    (if ua > 0 ∧ ub = 0 then (-1 : Int)
     else if ua = 0 ∧ ub > 0 then 1 else tb - ta) ≤ 0 ∨
    (if ub > 0 ∧ ua = 0 then (-1 : Int)
     else if ub = 0 ∧ ua > 0 then 1 else ta - tb) ≤ 0 := by
  split_ifs <;> omega

theorem chatCompare_trans (p : List String) (u : String) (a b c : Chat)
    (h1 : chatCompare p u a b ≤ 0) (h2 : chatCompare p u b c ≤ 0) :
    chatCompare p u a c ≤ 0 := by
  unfold chatCompare at h1 h2 ⊢
  cases hpa : p.contains a.id <;> cases hpb : p.contains b.id <;>
    cases hpc : p.contains c.id <;>
    simp only [hpa, hpb, hpc, Bool.false_and, Bool.and_false, Bool.true_and,
      Bool.and_true, Bool.not_false, Bool.not_true, Bool.false_eq_true,
      Bool.true_eq_false, if_false, if_true, ite_false, ite_true] at h1 h2 ⊢ <;>
    omega

theorem chatCompare_total (p : List String) (u : String) (a b : Chat) :
    chatCompare p u a b ≤ 0 ∨ chatCompare p u b a ≤ 0 := by
  unfold chatCompare
  cases hpa : p.contains a.id <;> cases hpb : p.contains b.id <;>
    simp only [hpa, hpb, Bool.false_and, Bool.and_false, Bool.true_and,
      Bool.and_true, Bool.not_false, Bool.not_true, Bool.false_eq_true,
      Bool.true_eq_false, if_false, if_true, ite_false, ite_true] <;>
    first
      | (left; omega)
      | (right; omega)
      | exact subCompare_total (chatUnread u a) (chatUnread u b) (chatSortTime a) (chatSortTime b)

theorem chatCompare_le_zero_props (p : List String) (u : String) (a b : Chat)
    (h : chatCompare p u a b ≤ 0) :
    (p.contains b.id = true → p.contains a.id = true) ∧
    (p.contains a.id = p.contains b.id →
      chatUnread u b > 0 → chatUnread u a > 0) ∧
    (p.contains a.id = p.contains b.id →
      (chatUnread u a > 0 ↔ chatUnread u b > 0) →
      chatSortTime b ≤ chatSortTime a) := by
  have hsub : ∀ (ua ub : Nat) (ta tb : Int),
      (if ua > 0 ∧ ub = 0 then (-1 : Int)
       else if ua = 0 ∧ ub > 0 then 1 else tb - ta) ≤ 0 →
      (ub > 0 → ua > 0) ∧ ((ua > 0 ↔ ub > 0) → tb ≤ ta) := by
    intro ua ub ta tb hh
    by_cases h1 : ua > 0 ∧ ub = 0
    · exact ⟨fun hub => absurd h1.2 (by omega),
        fun hiff => absurd (hiff.mp h1.1) (by omega)⟩
    · by_cases h2 : ua = 0 ∧ ub > 0
      · rw [if_neg h1, if_pos h2] at hh
        exact absurd hh (by omega)
      · rw [if_neg h1, if_neg h2] at hh
        exact ⟨fun hub => by omega, fun _ => by omega⟩
  unfold chatCompare at h
  cases hpa : p.contains a.id <;> cases hpb : p.contains b.id <;>
    simp only [hpa, hpb, Bool.false_and, Bool.and_false, Bool.true_and,
      Bool.and_true, Bool.not_false, Bool.not_true, Bool.false_eq_true,
      Bool.true_eq_false, if_false, if_true, ite_false, ite_true] at h
  · have hs := hsub _ _ _ _ h
    exact ⟨fun hf => hf, fun _ => hs.1, fun _ => hs.2⟩
  · exact absurd h (by omega)
  · exact ⟨fun hf => absurd hf (by simp), fun hf => absurd hf (by simp),
      fun hf => absurd hf (by simp)⟩
  · have hs := hsub _ _ _ _ h
    exact ⟨fun _ => rfl, fun _ => hs.1, fun _ => hs.2⟩

/-- First C5 counterexample chat (id `"a"`). -/
def c5ChatA : Chat := ⟨"a", ["me", "x"], "", none, [], some 5⟩

/-- Second C5 counterexample chat (id `"b"`). -/
def c5ChatB : Chat := ⟨"b", ["me", "y"], "", none, [], some 5⟩

/-- C5 counterexample: two unpinned, fully-read chats with equal sort
times are a comparator tie; presented in input order `[b, a]`, the
recomputed roster keeps them as `[b, a]` (stable sort preserves input
order) instead of sorting the tie by conversation id ascending, which
would give `[a, b]`. -/
theorem chatsListOrder_tie_not_id_ascending_cex :
    chatCompare [] "me" c5ChatB c5ChatA = 0 ∧
    chatCompare [] "me" c5ChatA c5ChatB = 0 ∧
    chatsListOrder "me" [] [] [c5ChatB, c5ChatA] = [c5ChatB, c5ChatA] ∧
    ¬ chatsListOrder "me" [] [] [c5ChatB, c5ChatA] = [c5ChatA, c5ChatB] ∧
    c5ChatA.id < c5ChatB.id := by
  refine ⟨by decide, by decide, by decide, by decide, ?_⟩
  exact String.lt_iff_toList_lt.mpr (by decide)

/-- C5 as amended: the roster recomputation is a deterministic pure
function of the conversation list, pin set, blocked set and unread map;
it keeps exactly the conversations whose counterpart is not blocked (the
output is a permutation of the filtered input and every element passes
the filter), and orders the result pairwise by the comparator: pinned
conversations precede unpinned ones, within the same pin status
conversations with unread messages precede fully-read ones, and within
the same pin status and unread-positivity the last-message time (falling
back to `createdAt`) is descending. Remaining ties are *not* broken by
conversation id ascending — the stable sort leaves them in input
order. -/
theorem chatsListOrder_filter_sort_spec (userId : String)
    (blockedUserIds pinnedChats : List String) (chats : List Chat) :
    (chatsListOrder userId blockedUserIds pinnedChats chats).Perm
      (chats.filter (rosterKeep userId blockedUserIds)) ∧
    (∀ c ∈ chatsListOrder userId blockedUserIds pinnedChats chats,
      rosterKeep userId blockedUserIds c = true) ∧
    List.Pairwise (fun a b => chatCompare pinnedChats userId a b ≤ 0)
      (chatsListOrder userId blockedUserIds pinnedChats chats) ∧
    List.Pairwise (fun a b =>
      (pinnedChats.contains b.id = true → pinnedChats.contains a.id = true) ∧
      (pinnedChats.contains a.id = pinnedChats.contains b.id →
        chatUnread userId b > 0 → chatUnread userId a > 0) ∧
      (pinnedChats.contains a.id = pinnedChats.contains b.id →
        (chatUnread userId a > 0 ↔ chatUnread userId b > 0) →
        chatSortTime b ≤ chatSortTime a))
      (chatsListOrder userId blockedUserIds pinnedChats chats) := by
  haveI : IsTrans Chat (fun a b => chatCompare pinnedChats userId a b ≤ 0) :=
    ⟨fun a b c => chatCompare_trans pinnedChats userId a b c⟩
  haveI : IsTotal Chat (fun a b => chatCompare pinnedChats userId a b ≤ 0) :=
    ⟨fun a b => chatCompare_total pinnedChats userId a b⟩
  have hsorted : List.Pairwise (fun a b => chatCompare pinnedChats userId a b ≤ 0)
      (chatsListOrder userId blockedUserIds pinnedChats chats) :=
    List.sorted_insertionSort _ _
  refine ⟨?_, ?_, hsorted, ?_⟩
  · exact List.perm_insertionSort _ _
  · intro c hc
    have hmem : c ∈ chats.filter (rosterKeep userId blockedUserIds) :=
      (List.perm_insertionSort _ _).subset hc
    exact (List.mem_filter.mp hmem).2
  · exact hsorted.imp (fun hab =>
      chatCompare_le_zero_props pinnedChats userId _ _ hab)

/-- Witness for C5's amended theorem at the concrete two-chat input. -/
theorem chatsListOrder_filter_sort_spec_witness :
    (chatsListOrder "me" [] [] [c5ChatB, c5ChatA]).Perm
      ([c5ChatB, c5ChatA].filter (rosterKeep "me" [])) ∧
    List.Pairwise (fun a b => chatCompare [] "me" a b ≤ 0)
      (chatsListOrder "me" [] [] [c5ChatB, c5ChatA]) := by
  exact ⟨(chatsListOrder_filter_sort_spec "me" [] [] [c5ChatB, c5ChatA]).1,
    (chatsListOrder_filter_sort_spec "me" [] [] [c5ChatB, c5ChatA]).2.2.1⟩

end ChatX
